import Mathlib

/-!
Verification of the training orchestration script `open_flamingo/train/train.py`.

The script is shallowly embedded below: parameter grouping, seeding, checkpoint
discovery/selection, the epoch loop bounds, and the rank-0 side-effect phases
(evaluation logging, checkpoint save/rotate, finalization) are translated into
executable Lean definitions, and the spec's claims are settled as theorems
about those definitions.
-/

namespace OpenFlamingoTrain

/-! ### Python string primitives used by the script

`strContains hay needle` models Python's `needle in hay` (substring test),
`splitOnChar` models `str.split(sep)` for a one-character separator, and
`digitsVal` models `int(s)` for a nonnegative digit string (`none` when the
text is not a plain digit run, where Python would raise `ValueError`). -/

def strContainsAux (needle : List Char) : List Char → Bool
  | [] => needle.isEmpty
  | c :: rest => List.isPrefixOf needle (c :: rest) || strContainsAux needle rest

def strContains (hay needle : String) : Bool :=
  strContainsAux needle.data hay.data

def splitOnChar (sep : Char) : List Char → List (List Char)
  | [] => [[]]
  | c :: rest =>
    match splitOnChar sep rest with
    | [] => if c = sep then [[], []] else [[c]]
    | h :: t => if c = sep then [] :: h :: t else (c :: h) :: t

def charDigit (c : Char) : Option Nat :=
  if '0' ≤ c ∧ c ≤ '9' then some (c.toNat - '0'.toNat) else none

def digitsVal (l : List Char) : Option Nat :=
  if l.isEmpty then none
  else l.foldl (fun acc c => acc.bind (fun n => (charDigit c).map (fun d => n * 10 + d))) (some 0)

/-! ### ParameterGrouper (train.py lines 147-167)

`apply_decay` is the inner predicate of `get_grouped_params`: five Python
substring tests on the parameter's qualified name.  `groupLoop` is the
`for n, p in model.named_parameters()` loop appending each named parameter to
`params_with_wd` or `params_without_wd`; the parameter handle is carried
together with its qualified name.  `get_grouped_params` returns the two
optimizer groups, the first with the configured `weight_decay`, the second
with weight decay `0.0` (modelled as the rational `0`). -/

def apply_decay (x : String) : Bool :=
  strContains x "gated_cross_attn_layer"
    && !(strContains x "ff_gate")
    && !(strContains x "attn_gate")
    && !(strContains x "norm")
    && !(strContains x "bias")

structure ParamGroup (P : Type) where
  params : List P
  weight_decay : ℚ

def groupLoop {P : Type} : List (String × P) → List (String × P) × List (String × P)
  | [] => ([], [])
  | np :: rest =>
    let r := groupLoop rest
    if apply_decay np.1 then (np :: r.1, r.2) else (r.1, np :: r.2)

def get_grouped_params {P : Type} (weight_decay_arg : ℚ) (namedParams : List (String × P)) :
    List (ParamGroup (String × P)) :=
  let r := groupLoop namedParams
  [⟨r.1, weight_decay_arg⟩, ⟨r.2, 0⟩]

/-- The five parameter names of the spec's grouping test, paired with dummy handles. -/
def exampleParamNames : List (String × Unit) :=
  [("gated_cross_attn_layer.ff_gate", ()),
   ("gated_cross_attn_layer.attn.qkv", ()),
   ("gated_cross_attn_layer.norm.weight", ()),
   ("backbone.layer3.bias", ()),
   ("gated_cross_attn_layer.attn_gate", ())]

lemma apply_decay_eq_true (x : String) :
    apply_decay x = true ↔
      (strContains x "gated_cross_attn_layer" = true
        ∧ strContains x "ff_gate" = false
        ∧ strContains x "attn_gate" = false
        ∧ strContains x "norm" = false
        ∧ strContains x "bias" = false) := by
  simp [apply_decay, Bool.and_eq_true, Bool.not_eq_true', and_assoc]

lemma groupLoop_eq_filter {P : Type} (l : List (String × P)) :
    groupLoop l
      = (l.filter (fun np => apply_decay np.1), l.filter (fun np => !(apply_decay np.1))) := by
  induction l with
  | nil => rfl
  | cons hd tl ih =>
    by_cases h : apply_decay hd.1
    · simp only [groupLoop, ih, List.filter_cons, h, if_true, Bool.not_true, if_false,
        Bool.false_eq_true]
    · simp only [groupLoop, ih, List.filter_cons, h, if_false, Bool.not_false, if_true,
        Bool.false_eq_true, Bool.true_eq_false]

lemma length_filter_add_length_filter_neg {α : Type} (p : α → Bool) (l : List α) :
    (l.filter p).length + (l.filter (fun a => !(p a))).length = l.length :=
  (List.length_eq_length_filter_add p).symm

/-- C1: `get_grouped_params` partitions every named parameter collection into
exactly two groups; a parameter lands in the weight-decay group iff its
qualified name contains the gated cross-attention marker and contains none of
`ff_gate`, `attn_gate`, `norm`, `bias`; every other parameter lands in the
group with weight decay `0.0`; every parameter is in exactly one group; and on
the spec's five example names only `gated_cross_attn_layer.attn.qkv` is
decay-eligible. -/
theorem C1_param_grouping {P : Type} (wd : ℚ) (ps : List (String × P)) :
    ∃ g1 g2 : ParamGroup (String × P),
      get_grouped_params wd ps = [g1, g2]
      ∧ g1.weight_decay = wd
      ∧ g2.weight_decay = 0
      ∧ (∀ np : String × P, np ∈ g1.params ↔ np ∈ ps ∧
           (strContains np.1 "gated_cross_attn_layer" = true
             ∧ strContains np.1 "ff_gate" = false
             ∧ strContains np.1 "attn_gate" = false
             ∧ strContains np.1 "norm" = false
             ∧ strContains np.1 "bias" = false))
      ∧ (∀ np : String × P, np ∈ g2.params ↔ np ∈ ps ∧ apply_decay np.1 = false)
      ∧ (∀ np : String × P, ¬(np ∈ g1.params ∧ np ∈ g2.params))
      ∧ g1.params.length + g2.params.length = ps.length
      ∧ (groupLoop exampleParamNames).1.map Prod.fst = ["gated_cross_attn_layer.attn.qkv"]
      ∧ (groupLoop exampleParamNames).2.map Prod.fst
          = ["gated_cross_attn_layer.ff_gate", "gated_cross_attn_layer.norm.weight",
             "backbone.layer3.bias", "gated_cross_attn_layer.attn_gate"] := by
  refine ⟨⟨ps.filter (fun np => apply_decay np.1), wd⟩,
         ⟨ps.filter (fun np => !(apply_decay np.1)), 0⟩, ?_, rfl, rfl, ?_, ?_, ?_, ?_, ?_, ?_⟩
  · simp [get_grouped_params, groupLoop_eq_filter]
  · intro np
    rw [← apply_decay_eq_true]
    simp [List.mem_filter]
  · intro np
    simp [List.mem_filter, Bool.not_eq_true']
  · intro np ⟨h1, h2⟩
    rw [List.mem_filter] at h1 h2
    rw [Bool.not_eq_true'] at h2
    exact absurd h1.2 (by simp [h2.2])
  · exact length_filter_add_length_filter_neg _ ps
  · decide
  · decide

/-- Closed instantiation of `C1_param_grouping` (its statement quantifies over
parameter collections and contains negative conjuncts). -/
theorem C1_param_grouping_witness :
    (get_grouped_params (1 / 10 : ℚ) exampleParamNames).length = 2 := by
  obtain ⟨g1, g2, h, -⟩ := C1_param_grouping (1 / 10 : ℚ) exampleParamNames
  rw [h]
  rfl

/-! ### SeedController (train.py lines 21-24, 123, 133)

`random_seed(seed, rank)` overwrites all three PRNG states (torch, numpy,
python `random`) with the single value `seed + rank`.  The script calls it
once before model construction as `random_seed(args.seed)` — Python defaults
the rank argument to `0` — and once after as
`random_seed(args.seed, args.rank)`. -/

structure RNGState where
  torchSeed : Nat
  numpySeed : Nat
  pythonSeed : Nat
deriving DecidableEq

def random_seed (seed rank : Nat) (_prev : RNGState) : RNGState :=
  ⟨seed + rank, seed + rank, seed + rank⟩

/-- The call `random_seed(args.seed)` at line 123: rank defaults to 0. -/
def preModelSeedPass (argsSeed : Nat) (st : RNGState) : RNGState :=
  random_seed argsSeed 0 st

/-- The call `random_seed(args.seed, args.rank)` at line 133. -/
def postModelSeedPass (argsSeed rank : Nat) (st : RNGState) : RNGState :=
  random_seed argsSeed rank st

/-- C7: `random_seed` applies the single value `seed + rank` to all three
randomness sources, is deterministic (independent of prior PRNG state) and
idempotent; the pre-model pass ignores rank-local state and uses effective
rank 0, so it does not vary by rank, while the post-model pass gives distinct
ranks distinct resulting states. -/
theorem C7_seeding (s r : Nat) (st st' : RNGState) :
    ((random_seed s r st).torchSeed = s + r
      ∧ (random_seed s r st).numpySeed = s + r
      ∧ (random_seed s r st).pythonSeed = s + r)
    ∧ random_seed s r st = random_seed s r st'
    ∧ random_seed s r (random_seed s r st) = random_seed s r st
    ∧ (∀ stA stB : RNGState, preModelSeedPass s stA = preModelSeedPass s stB)
    ∧ (∀ stA : RNGState, preModelSeedPass s stA = random_seed s 0 stA)
    ∧ (∀ r1 r2 : Nat, r1 ≠ r2 → postModelSeedPass s r1 st ≠ postModelSeedPass s r2 st) := by
  refine ⟨⟨rfl, rfl, rfl⟩, rfl, rfl, fun _ _ => rfl, fun _ => rfl, ?_⟩
  intro r1 r2 hne hcontra
  apply hne
  have h1 : (postModelSeedPass s r1 st).torchSeed = s + r1 := rfl
  have h2 : (postModelSeedPass s r2 st).torchSeed = s + r2 := rfl
  have := h1 ▸ h2 ▸ congrArg RNGState.torchSeed hcontra
  omega

/-- Closed instantiation of `C7_seeding` discharging its inequality hypothesis. -/
theorem C7_seeding_witness :
    (random_seed 42 3 ⟨0, 0, 0⟩).torchSeed = 45
    ∧ postModelSeedPass 42 1 ⟨0, 0, 0⟩ ≠ postModelSeedPass 42 2 ⟨0, 0, 0⟩ :=
  ⟨(C7_seeding 42 3 ⟨0, 0, 0⟩ ⟨0, 0, 0⟩).1.1,
   (C7_seeding 42 0 ⟨0, 0, 0⟩ ⟨0, 0, 0⟩).2.2.2.2.2 1 2 (by decide)⟩

/-! ### Epoch loop bounds (train.py lines 181-192)

`resume_from_epoch` is `0` when no checkpoint was loaded and
`checkpoint["epoch"] + 1` when one was (line 188).  The loop header
`for epoch in range(resume_from_epoch, args.num_epochs)` visits exactly
`List.range' start (numEpochs - start)`. -/

def resume_from_epoch (loadedEpoch : Option Nat) : Nat :=
  match loadedEpoch with
  | none => 0
  | some e => e + 1

/-- The sequence of epoch values visited by `range(start, numEpochs)`. -/
def epochSequence (start numEpochs : Nat) : List Nat :=
  List.range' start (numEpochs - start)

/-- C3: the epoch loop starts at 0 fresh and at `checkpoint.epoch + 1` when a
checkpoint with last-completed epoch `e` was loaded (epoch 7 resumes at 8);
the visited epochs are `start + i` at position `i` — each iteration increases
the counter by exactly one, none skipped or repeated — and every visited epoch
is below the configured total. -/
theorem C3_epoch_loop (loadedEpoch : Option Nat) (numEpochs : Nat) :
    (loadedEpoch = none → resume_from_epoch loadedEpoch = 0)
    ∧ (∀ e : Nat, loadedEpoch = some e → resume_from_epoch loadedEpoch = e + 1)
    ∧ (∀ i : Nat, ∀ h : i < (epochSequence (resume_from_epoch loadedEpoch) numEpochs).length,
        (epochSequence (resume_from_epoch loadedEpoch) numEpochs)[i]
          = resume_from_epoch loadedEpoch + i)
    ∧ (epochSequence (resume_from_epoch loadedEpoch) numEpochs).Nodup
    ∧ (∀ e ∈ epochSequence (resume_from_epoch loadedEpoch) numEpochs, e < numEpochs) := by
  refine ⟨fun h => by rw [h]; rfl, fun e h => by rw [h]; rfl, ?_, ?_, ?_⟩
  · intro i h
    simp only [epochSequence] at h ⊢
    rw [List.getElem_range' i]
    omega
  · exact List.nodup_range' _ _ 1 Nat.one_pos
  · intro e he
    simp only [epochSequence, List.mem_range'_1] at he
    omega

/-- Closed instantiation of `C3_epoch_loop`: resuming from a checkpoint with
epoch 7 starts the loop at 8, and with 10 configured epochs the second visited
epoch is 9. -/
theorem C3_epoch_loop_witness :
    resume_from_epoch (some 7) = 8
    ∧ (epochSequence (resume_from_epoch (some 7)) 10).get ⟨1, by decide⟩
        = resume_from_epoch (some 7) + 1
    ∧ (8 : Nat) < 10 :=
  ⟨(C3_epoch_loop (some 7) 10).2.1 7 rfl,
   (C3_epoch_loop (some 7) 10).2.2.1 1 (by decide),
   (C3_epoch_loop (some 7) 10).2.2.2.2 8 (by decide)⟩

/-! ### Side-effect model for the rank-0 phases of the epoch loop

Each epoch of `main` ends with an evaluation phase (lines 208-260) and a
checkpointing phase (lines 262-279); after the loop a finalize phase runs
(lines 281-286).  We model the externally visible effects of these phases as
event lists, in program order.  `torch.save` may raise (e.g. storage
exhausted); this is modelled by the flag `saveOk`: when it is `false` the
save produces no artifact and the statements after it never execute (the
exception propagates out of `main`). -/

inductive Artifact where
  /-- The per-epoch checkpoint record: epoch, model, optimizer, scheduler state. -/
  | ckptRecord (epoch : Nat) : Artifact
  /-- `get_checkpoint(ddp_model)` alone: model weights only. -/
  | modelWeightsOnly : Artifact
deriving DecidableEq

inductive Eff where
  | makeDirs (path : String) : Eff
  | fileWrite (path : String) (contents : Artifact) : Eff
  | wandbSaveFile (path : String) : Eff
  | fileRemove (path : String) : Eff
  /-- One external evaluator call; tasks 0, 1, 2 are COCO, OKVQA, VQAv2. -/
  | evalTask (task : Nat) (step : Nat) : Eff
  | telemetryLog (task : Nat) (step : Nat) (commit : Bool) : Eff
  | modelTrainMode : Eff
deriving DecidableEq

/-- The f-string `f"[run_name]/checkpoint_[epoch].pt"` (braces elided). -/
def ckptPath (runName : String) (epoch : Nat) : String :=
  runName ++ "/checkpoint_" ++ toString epoch ++ ".pt"

/-- The f-string `f"[run_name]/final_weights.pt"` (braces elided). -/
def finalWeightsPath (runName : String) : String :=
  runName ++ "/final_weights.pt"

/-- Checkpointing phase, train.py lines 262-279. -/
def ckptPhaseEvents (rank : Nat) (runName : String)
    (runDirExists saveOk reportToWandb deletePrev : Bool) (epoch : Nat) : List Eff :=
  if rank = 0 then
    (if runDirExists then [] else [Eff.makeDirs runName])
      ++ (if saveOk then
            Eff.fileWrite (ckptPath runName epoch) (Artifact.ckptRecord epoch)
              :: ((if reportToWandb then [Eff.wandbSaveFile (ckptPath runName epoch)] else [])
                  ++ (if deletePrev && decide (0 < epoch) then
                        [Eff.fileRemove (ckptPath runName (epoch - 1))]
                      else []))
          else [])
  else []

/-- Evaluation phase, train.py lines 208-260. -/
def evalPhaseEvents (rank : Nat) (do_eval reportToWandb : Bool) (wandbStep : Nat) : List Eff :=
  if do_eval && decide (rank = 0) then
    let step := if reportToWandb then wandbStep else 0
    [Eff.evalTask 0 step]
      ++ (if reportToWandb then [Eff.telemetryLog 0 step false] else [])
      ++ [Eff.evalTask 1 step]
      ++ (if reportToWandb then [Eff.telemetryLog 1 step false] else [])
      ++ [Eff.evalTask 2 step]
      ++ (if reportToWandb then [Eff.telemetryLog 2 step true] else [])
      ++ [Eff.modelTrainMode]
  else []

/-- The tail of one epoch iteration: evaluation phase then checkpointing phase. -/
def epochTailEvents (rank : Nat) (runName : String)
    (do_eval reportToWandb runDirExists saveOk deletePrev : Bool)
    (wandbStep epoch : Nat) : List Eff :=
  evalPhaseEvents rank do_eval reportToWandb wandbStep
    ++ ckptPhaseEvents rank runName runDirExists saveOk reportToWandb deletePrev epoch

/-- Finalize phase, train.py lines 281-286. -/
def finalizeEvents (rank : Nat) (runName : String) (runDirExists reportToWandb : Bool) :
    List Eff :=
  if rank = 0 then
    (if runDirExists then [] else [Eff.makeDirs runName])
      ++ [Eff.fileWrite (finalWeightsPath runName) Artifact.modelWeightsOnly]
      ++ (if reportToWandb then [Eff.wandbSaveFile (finalWeightsPath runName)] else [])
  else []

/-- A filesystem abstraction: the directories created and the files present. -/
structure FS where
  dirs : List String
  files : List (String × Artifact)
deriving DecidableEq

def applyEff (fs : FS) : Eff → FS
  | Eff.makeDirs p => ⟨p :: fs.dirs, fs.files⟩
  | Eff.fileWrite p a => ⟨fs.dirs, (p, a) :: fs.files.filter (fun f => !(f.1 == p))⟩
  | Eff.fileRemove p => ⟨fs.dirs, fs.files.filter (fun f => !(f.1 == p))⟩
  | _ => fs

def applyEffs (fs : FS) (evs : List Eff) : FS :=
  evs.foldl applyEff fs

/-- The telemetry writes of an event trace, as (task, step, commit) triples. -/
def logEntries (evs : List Eff) : List (Nat × Nat × Bool) :=
  evs.filterMap (fun ev =>
    match ev with
    | Eff.telemetryLog t s c => some (t, s, c)
    | _ => none)

lemma fileRemove_mem_ckptPhaseEvents_iff (rank : Nat) (runName : String)
    (runDirExists saveOk reportToWandb deletePrev : Bool) (epoch : Nat) (p : String) :
    Eff.fileRemove p
        ∈ ckptPhaseEvents rank runName runDirExists saveOk reportToWandb deletePrev epoch
      ↔ (rank = 0 ∧ saveOk = true ∧ deletePrev = true ∧ 0 < epoch
          ∧ p = ckptPath runName (epoch - 1)) := by
  by_cases hr : rank = 0
  · subst hr
    by_cases he : 0 < epoch <;>
      cases runDirExists <;> cases saveOk <;> cases reportToWandb <;> cases deletePrev <;>
      simp_all [ckptPhaseEvents]
  · simp [ckptPhaseEvents, hr]

/-- C4 counterexample: in a resumed run (checkpoint with epoch 7 was loaded,
so the first epoch processed in this run is `resume_from_epoch (some 7) = 8`),
with rotation enabled and the save of epoch 8 successful, the rotation step
does delete a checkpoint record — `myrun/checkpoint_7.pt` — contradicting the
claim that it never deletes on the run's first processed epoch. -/
theorem C4_rotation_counterexample :
    resume_from_epoch (some 7) = 8
    ∧ (epochSequence (resume_from_epoch (some 7)) 10).headD 0 = 8
    ∧ Eff.fileRemove (ckptPath "myrun" 7)
        ∈ ckptPhaseEvents 0 "myrun" true true true true 8
    ∧ (ckptPath "myrun" 7, Artifact.ckptRecord 7)
        ∉ (applyEffs ⟨["myrun"], [(ckptPath "myrun" 7, Artifact.ckptRecord 7)]⟩
            (ckptPhaseEvents 0 "myrun" true true true true 8)).files := by
  refine ⟨rfl, rfl, ?_, ?_⟩ <;> decide

/-- C4 (amended): with rotation enabled, the rotation step after a successful
save deletes nothing when the just-completed epoch is 0 (the fresh-run case),
but for every epoch `e ≥ 1` — including the first epoch processed after a
resume — it deletes exactly the epoch `e-1` record: a removal event occurs iff
the process is rank 0, the save succeeded, rotation is enabled and `0 < e`,
and the removed path is the epoch `e-1` checkpoint. -/
theorem C4_rotation_amended (rank : Nat) (runName : String)
    (runDirExists saveOk reportToWandb deletePrev : Bool) (epoch : Nat) (p : String) :
    (Eff.fileRemove p
        ∈ ckptPhaseEvents rank runName runDirExists saveOk reportToWandb deletePrev epoch
      ↔ (rank = 0 ∧ saveOk = true ∧ deletePrev = true ∧ 0 < epoch
          ∧ p = ckptPath runName (epoch - 1)))
    ∧ Eff.fileRemove p
        ∉ ckptPhaseEvents rank runName runDirExists saveOk reportToWandb deletePrev 0 := by
  refine ⟨fileRemove_mem_ckptPhaseEvents_iff _ _ _ _ _ _ _ _, fun h => ?_⟩
  have := (fileRemove_mem_ckptPhaseEvents_iff rank runName runDirExists saveOk
    reportToWandb deletePrev 0 p).mp h
  omega

/-- Closed instantiation of `C4_rotation_amended`: saving epoch 1 with
rotation enabled removes the epoch 0 record. -/
theorem C4_rotation_amended_witness :
    Eff.fileRemove (ckptPath "run" 0) ∈ ckptPhaseEvents 0 "run" true true true true 1 :=
  (C4_rotation_amended 0 "run" true true true true 1 (ckptPath "run" 0)).1.mpr
    ⟨rfl, rfl, rfl, by decide, rfl⟩

/-- C5: rotation deletion executes strictly after a successful save.  If the
save of epoch `e` raises (`saveOk = false`), no removal event occurs, the file
set is unchanged, and in particular the epoch `e-1` record still exists; and
in any successful-save trace, every removal event appears strictly after the
completed write of the epoch-`e` record. -/
theorem C5_rotation_strictly_after_save (rank : Nat) (runName : String)
    (runDirExists reportToWandb deletePrev : Bool) (epoch : Nat) (fs : FS) :
    (∀ p : String,
      Eff.fileRemove p
        ∉ ckptPhaseEvents rank runName runDirExists false reportToWandb deletePrev epoch)
    ∧ (applyEffs fs
        (ckptPhaseEvents rank runName runDirExists false reportToWandb deletePrev epoch)).files
        = fs.files
    ∧ ((ckptPath runName (epoch - 1), Artifact.ckptRecord (epoch - 1)) ∈ fs.files →
        (ckptPath runName (epoch - 1), Artifact.ckptRecord (epoch - 1))
          ∈ (applyEffs fs
              (ckptPhaseEvents rank runName runDirExists false reportToWandb deletePrev
                epoch)).files)
    ∧ (∀ p : String,
        Eff.fileRemove p
            ∈ ckptPhaseEvents rank runName runDirExists true reportToWandb deletePrev epoch →
        ∃ l1 l2 : List Eff,
          ckptPhaseEvents rank runName runDirExists true reportToWandb deletePrev epoch
            = l1 ++ Eff.fileWrite (ckptPath runName epoch) (Artifact.ckptRecord epoch) :: l2
          ∧ Eff.fileRemove p ∈ l2) := by
  have hfiles : (applyEffs fs
      (ckptPhaseEvents rank runName runDirExists false reportToWandb deletePrev epoch)).files
      = fs.files := by
    by_cases hr : rank = 0
    · cases runDirExists <;> simp [ckptPhaseEvents, hr, applyEffs, applyEff]
    · simp [ckptPhaseEvents, hr, applyEffs]
  refine ⟨?_, hfiles, fun hmem => hfiles ▸ hmem, ?_⟩
  · intro p hmem
    have := (fileRemove_mem_ckptPhaseEvents_iff rank runName runDirExists false
      reportToWandb deletePrev epoch p).mp hmem
    simp at this
  · intro p hmem
    have hcond := (fileRemove_mem_ckptPhaseEvents_iff rank runName runDirExists true
      reportToWandb deletePrev epoch p).mp hmem
    obtain ⟨hr, -, hdp, he, hp⟩ := hcond
    subst hr
    refine ⟨if runDirExists then [] else [Eff.makeDirs runName],
      (if reportToWandb then [Eff.wandbSaveFile (ckptPath runName epoch)] else [])
        ++ (if deletePrev && decide (0 < epoch) then
              [Eff.fileRemove (ckptPath runName (epoch - 1))]
            else []), ?_, ?_⟩
    · simp [ckptPhaseEvents]
    · simp [hdp, he, hp]

/-- Closed instantiation of `C5_rotation_strictly_after_save`: with a failed
save of epoch 5, the epoch 4 record present before is still present after. -/
theorem C5_rotation_strictly_after_save_witness :
    (ckptPath "run" 4, Artifact.ckptRecord 4)
      ∈ (applyEffs ⟨["run"], [(ckptPath "run" 4, Artifact.ckptRecord 4)]⟩
          (ckptPhaseEvents 0 "run" true false true true 5)).files :=
  (C5_rotation_strictly_after_save 0 "run" true true true 5
      ⟨["run"], [(ckptPath "run" 4, Artifact.ckptRecord 4)]⟩).2.2.1
    (by decide)

/-- C8: a process whose rank is not 0 performs no filesystem side effect in
the checkpointing or finalize steps (and none in the evaluation phase either):
its event traces are empty and leave any filesystem state unchanged. -/
theorem C8_rank_zero_only_writes (rank : Nat) (h : rank ≠ 0) (runName : String)
    (do_eval runDirExists saveOk reportToWandb deletePrev : Bool)
    (wandbStep epoch : Nat) (fs : FS) :
    ckptPhaseEvents rank runName runDirExists saveOk reportToWandb deletePrev epoch = []
    ∧ finalizeEvents rank runName runDirExists reportToWandb = []
    ∧ epochTailEvents rank runName do_eval reportToWandb runDirExists saveOk deletePrev
        wandbStep epoch = []
    ∧ applyEffs fs (epochTailEvents rank runName do_eval reportToWandb runDirExists saveOk
        deletePrev wandbStep epoch) = fs
    ∧ applyEffs fs (finalizeEvents rank runName runDirExists reportToWandb) = fs := by
  have h1 : ckptPhaseEvents rank runName runDirExists saveOk reportToWandb deletePrev
      epoch = [] := by simp [ckptPhaseEvents, h]
  have h2 : finalizeEvents rank runName runDirExists reportToWandb = [] := by
    simp [finalizeEvents, h]
  have h3 : epochTailEvents rank runName do_eval reportToWandb runDirExists saveOk deletePrev
      wandbStep epoch = [] := by
    simp [epochTailEvents, evalPhaseEvents, h, h1]
  exact ⟨h1, h2, h3, by rw [h3]; rfl, by rw [h2]; rfl⟩

/-- Closed instantiation of `C8_rank_zero_only_writes` at rank 1. -/
theorem C8_rank_zero_only_writes_witness :
    ckptPhaseEvents 1 "run" true true true true 3 = []
    ∧ finalizeEvents 1 "run" true true = [] :=
  ⟨(C8_rank_zero_only_writes 1 (by decide) "run" true true true true true 0 3
      ⟨[], []⟩).1,
   (C8_rank_zero_only_writes 1 (by decide) "run" true true true true true 0 3
      ⟨[], []⟩).2.1⟩

/-- C9: with evaluation and telemetry enabled on rank 0, the three evaluation
calls share one telemetry step: the trace logs exactly three score reports at
the same step, the first two with `commit = false` and the third with
`commit = true`, and the model is returned to training mode before any event
of the checkpointing phase. -/
theorem C9_eval_batching (runName : String) (runDirExists saveOk deletePrev : Bool)
    (wandbStep epoch : Nat) :
    evalPhaseEvents 0 true true wandbStep
      = [Eff.evalTask 0 wandbStep, Eff.telemetryLog 0 wandbStep false,
         Eff.evalTask 1 wandbStep, Eff.telemetryLog 1 wandbStep false,
         Eff.evalTask 2 wandbStep, Eff.telemetryLog 2 wandbStep true,
         Eff.modelTrainMode]
    ∧ logEntries (evalPhaseEvents 0 true true wandbStep)
        = [(0, wandbStep, false), (1, wandbStep, false), (2, wandbStep, true)]
    ∧ (∀ t s : Nat, ∀ c : Bool,
        Eff.telemetryLog t s c ∈ evalPhaseEvents 0 true true wandbStep → s = wandbStep)
    ∧ epochTailEvents 0 runName true true runDirExists saveOk deletePrev wandbStep epoch
        = [Eff.evalTask 0 wandbStep, Eff.telemetryLog 0 wandbStep false,
           Eff.evalTask 1 wandbStep, Eff.telemetryLog 1 wandbStep false,
           Eff.evalTask 2 wandbStep, Eff.telemetryLog 2 wandbStep true]
          ++ Eff.modelTrainMode
            :: ckptPhaseEvents 0 runName runDirExists saveOk true deletePrev epoch := by
  refine ⟨by simp [evalPhaseEvents], by simp [evalPhaseEvents, logEntries], ?_,
    by simp [epochTailEvents, evalPhaseEvents]⟩
  intro t s c hmem
  simp [evalPhaseEvents] at hmem
  rcases hmem with h | h | h <;> exact h.2.1

/-- Closed instantiation of `C9_eval_batching` at telemetry step 5. -/
theorem C9_eval_batching_witness :
    logEntries (evalPhaseEvents 0 true true 5) = [(0, 5, false), (1, 5, false), (2, 5, true)]
    ∧ (5 : Nat) = 5 :=
  ⟨(C9_eval_batching "run" true true true 5 0).2.1,
   (C9_eval_batching "run" true true true 5 0).2.2.1 0 5 false (by decide)⟩

/-- C10: when the resolved starting epoch is at least the configured epoch
count, the loop visits no epoch, yet rank 0 still writes the weights-only
final artifact at `runName/final_weights.pt`, creating the run directory
first when it does not exist. -/
theorem C10_final_weights_on_empty_loop (start total : Nat) (h : total ≤ start)
    (runName : String) (runDirExists reportToWandb : Bool) (fs : FS) :
    epochSequence start total = []
    ∧ Eff.fileWrite (finalWeightsPath runName) Artifact.modelWeightsOnly
        ∈ finalizeEvents 0 runName runDirExists reportToWandb
    ∧ (finalWeightsPath runName, Artifact.modelWeightsOnly)
        ∈ (applyEffs fs (finalizeEvents 0 runName runDirExists reportToWandb)).files
    ∧ (runDirExists = false →
        runName ∈ (applyEffs fs (finalizeEvents 0 runName false reportToWandb)).dirs) := by
  refine ⟨?_, ?_, ?_, ?_⟩
  · simp [epochSequence, Nat.sub_eq_zero_of_le h]
  · cases runDirExists <;> cases reportToWandb <;> simp [finalizeEvents]
  · cases runDirExists <;> cases reportToWandb <;>
      simp [finalizeEvents, applyEffs, applyEff]
  · intro _
    cases reportToWandb <;> simp [finalizeEvents, applyEffs, applyEff]

/-- Closed instantiation of `C10_final_weights_on_empty_loop`: resuming from a
checkpoint with epoch 4 under a 3-epoch configuration runs zero iterations and
still writes the final weights. -/
theorem C10_final_weights_on_empty_loop_witness :
    epochSequence (resume_from_epoch (some 4)) 3 = []
    ∧ Eff.fileWrite (finalWeightsPath "run") Artifact.modelWeightsOnly
        ∈ finalizeEvents 0 "run" false true :=
  ⟨(C10_final_weights_on_empty_loop (resume_from_epoch (some 4)) 3 (by decide) "run" false
      true ⟨[], []⟩).1,
   (C10_final_weights_on_empty_loop (resume_from_epoch (some 4)) 3 (by decide) "run" false
      true ⟨[], []⟩).2.1⟩

/-! ### CheckpointManager discovery (train.py lines 172-179)

`glob.glob(f"[run_name]/checkpoint_*.pt")` (braces elided) is modelled as
filtering the run directory's file names by the pattern; the selection
`sorted(checkpoint_list, key=lambda x: int(x.split("_")[-1].split(".")[0]))[-1]`
is a stable ascending sort by the embedded integer followed by taking the last
element. -/

def matchesCkptPattern (s : String) : Bool :=
  List.isPrefixOf "checkpoint_".data s.data && List.isSuffixOf ".pt".data s.data

/-- `int(x.split("_")[-1].split(".")[0])` for a well-formed checkpoint name. -/
def ckptEpochKey (s : String) : Nat :=
  (digitsVal ((splitOnChar '.' ((splitOnChar '_' s.data).getLastD [])).headD [])).getD 0

def ckptKeyLE (a b : String) : Prop :=
  ckptEpochKey a ≤ ckptEpochKey b

instance : DecidableRel ckptKeyLE :=
  fun a b => Nat.decLe (ckptEpochKey a) (ckptEpochKey b)

instance : IsTotal String ckptKeyLE :=
  ⟨fun a b => Nat.le_total (ckptEpochKey a) (ckptEpochKey b)⟩

instance : IsTrans String ckptKeyLE :=
  ⟨fun _ _ _ => Nat.le_trans⟩

def discoverCheckpoint (resume_from_checkpoint : Option String) (runDirExists : Bool)
    (dirFiles : List String) : Option String :=
  if runDirExists && resume_from_checkpoint.isNone then
    let checkpoint_list := dirFiles.filter matchesCkptPattern
    if checkpoint_list.isEmpty then none
    else (List.insertionSort ckptKeyLE checkpoint_list).getLast?
  else resume_from_checkpoint

lemma le_key_getLast_of_sorted :
    ∀ (l : List String) (h : l ≠ []), List.Sorted ckptKeyLE l →
      ∀ y ∈ l, ckptEpochKey y ≤ ckptEpochKey (l.getLast h)
  | [], h, _, _, _ => absurd rfl h
  | [a], _, _, y, hy => by
    rw [List.mem_singleton.mp hy]
    exact Nat.le_refl _
  | a :: b :: t, h, hs, y, hy => by
    rw [List.sorted_cons] at hs
    have hbt : b :: t ≠ [] := List.cons_ne_nil b t
    have hlast : (a :: b :: t).getLast h = (b :: t).getLast hbt := List.getLast_cons hbt
    rcases List.mem_cons.mp hy with hya | hybt
    · subst hya
      rw [hlast]
      exact hs.1 _ (List.getLast_mem hbt)
    · rw [hlast]
      exact le_key_getLast_of_sorted (b :: t) hbt hs.2 y hybt

lemma discover_selects_max (dirFiles : List String)
    (hne : dirFiles.filter matchesCkptPattern ≠ []) :
    ∃ best, discoverCheckpoint none true dirFiles = some best
      ∧ best ∈ dirFiles.filter matchesCkptPattern
      ∧ ∀ y ∈ dirFiles.filter matchesCkptPattern, ckptEpochKey y ≤ ckptEpochKey best := by
  have hperm := List.perm_insertionSort ckptKeyLE (dirFiles.filter matchesCkptPattern)
  have hsortne : List.insertionSort ckptKeyLE (dirFiles.filter matchesCkptPattern) ≠ [] := by
    intro h0
    rw [h0] at hperm
    exact hne (hperm.symm.eq_nil)
  refine ⟨(List.insertionSort ckptKeyLE (dirFiles.filter matchesCkptPattern)).getLast hsortne,
    ?_, ?_, ?_⟩
  · have hempty : (dirFiles.filter matchesCkptPattern).isEmpty = false := by
      cases hfe : dirFiles.filter matchesCkptPattern with
      | nil => exact absurd hfe hne
      | cons a t => rfl
    simp only [discoverCheckpoint, Bool.and_self, Option.isNone_none, Bool.and_true, if_true]
    rw [hempty]
    simp only [Bool.false_eq_true, if_false]
    exact List.getLast?_eq_getLast _ hsortne
  · exact hperm.mem_iff.mp (List.getLast_mem hsortne)
  · intro y hy
    exact le_key_getLast_of_sorted _ hsortne
      (List.sorted_insertionSort ckptKeyLE (dirFiles.filter matchesCkptPattern)) y
      (hperm.mem_iff.mpr hy)

/-- C2: with no explicit resume path and an existing run directory, discovery
filters the directory by the checkpoint naming pattern; an empty match set
leaves the resume target unset, and otherwise the selected file is a matching
file whose embedded epoch number is maximal under numeric comparison — on
`checkpoint_2.pt`, `checkpoint_5.pt`, `checkpoint_10.pt` it selects
`checkpoint_10.pt` (whose key is the integer 10, not the lexicographic
maximum).  An explicit resume path, or an absent run directory, bypasses
discovery. -/
theorem C2_checkpoint_discovery (dirFiles : List String) :
    (∀ runDirExists : Bool, ∀ r : String,
        discoverCheckpoint (some r) runDirExists dirFiles = some r)
    ∧ discoverCheckpoint none false dirFiles = none
    ∧ (dirFiles.filter matchesCkptPattern = [] →
        discoverCheckpoint none true dirFiles = none)
    ∧ (dirFiles.filter matchesCkptPattern ≠ [] →
        ∃ best, discoverCheckpoint none true dirFiles = some best
          ∧ best ∈ dirFiles.filter matchesCkptPattern
          ∧ ∀ y ∈ dirFiles.filter matchesCkptPattern, ckptEpochKey y ≤ ckptEpochKey best)
    ∧ discoverCheckpoint none true ["checkpoint_2.pt", "checkpoint_5.pt", "checkpoint_10.pt"]
        = some "checkpoint_10.pt"
    ∧ ckptEpochKey "checkpoint_10.pt" = 10
    ∧ ckptEpochKey "checkpoint_2.pt" = 2 := by
  refine ⟨?_, ?_, ?_, discover_selects_max dirFiles, ?_, ?_, ?_⟩
  · intro runDirExists r
    cases runDirExists <;> rfl
  · rfl
  · intro hfe
    simp [discoverCheckpoint, hfe]
  · decide
  · decide
  · decide

/-- Closed instantiation of `C2_checkpoint_discovery`: a directory with no
matching file yields no resume target, and the spec's three-file directory
yields `checkpoint_10.pt`. -/
theorem C2_checkpoint_discovery_witness :
    discoverCheckpoint none true ["final_weights.pt"] = none
    ∧ discoverCheckpoint none true ["checkpoint_2.pt", "checkpoint_5.pt", "checkpoint_10.pt"]
        = some "checkpoint_10.pt" :=
  ⟨(C2_checkpoint_discovery ["final_weights.pt"]).2.2.1 (by decide),
   (C2_checkpoint_discovery ["checkpoint_2.pt", "checkpoint_5.pt",
      "checkpoint_10.pt"]).2.2.2.2.1⟩

/-! ### CheckpointManager load (train.py lines 182-188)

The script restores model weights with
`ddp_model.load_state_dict(checkpoint["model_state_dict"], False)` — the
second argument is `strict=False` — and restores optimizer and scheduler state
with their default strict `load_state_dict`.  No handler wraps these calls:
any error propagates out of `main` and the process dies; there is no fallback
to a fresh start.  The loading routines themselves are library code outside
this repository, so their key-matching behavior is modelled from the spec,
over the key sets of the state dictionaries. -/

structure CheckpointRecordKeys where
  epoch : Nat
  modelKeys : List String
  optimizerKeys : List String
  schedulerKeys : List String

def sameKeySet (a b : List String) : Bool :=
  a.all (b.contains ·) && b.all (a.contains ·)

/-- Modelled from the spec: `Module.load_state_dict` with `strict=False`
(the call at train.py line 185) performs a "lenient merge (unknown or missing
keys in either direction are tolerated rather than rejected)": the keys
restored are those present on both sides, and the call never fails. -/
def lenientLoad (currentKeys ckptKeys : List String) : Except String (List String) :=
  Except.ok (currentKeys.filter (fun k => ckptKeys.contains k))

/-- Modelled from the spec: optimizer/scheduler `load_state_dict` (train.py
lines 186-187) restore "with an exact-match requirement (no leniency)": any
missing or mismatched key is an error. -/
def strictLoad (currentKeys ckptKeys : List String) : Except String Unit :=
  if sameKeySet currentKeys ckptKeys then Except.ok ()
  else Except.error "state dict key mismatch"

/-- The whole load block, train.py lines 182-188: lenient model restore, then
strict optimizer restore, then strict scheduler restore, then
`resume_from_epoch = checkpoint["epoch"] + 1`.  Any error aborts the process
(no handler exists), which the `Except.error` result models. -/
def loadCheckpointState (modelKeys optKeys schedKeys : List String)
    (r : CheckpointRecordKeys) : Except String Nat :=
  match lenientLoad modelKeys r.modelKeys with
  | Except.error e => Except.error e
  | Except.ok _ =>
    match strictLoad optKeys r.optimizerKeys with
    | Except.error e => Except.error e
    | Except.ok _ =>
      match strictLoad schedKeys r.schedulerKeys with
      | Except.error e => Except.error e
      | Except.ok _ => Except.ok (r.epoch + 1)

/-- C6: restoring a checkpoint merges model weights leniently — the model
restore succeeds whatever the two key sets are — while optimizer and scheduler
state require an exact key match: the load succeeds iff both match exactly,
any mismatch produces a fatal error result, and on success the resumed epoch
is `checkpoint.epoch + 1` (never a silent fresh start). -/
theorem C6_load_semantics (modelKeys optKeys schedKeys : List String)
    (r : CheckpointRecordKeys) :
    (∃ merged, lenientLoad modelKeys r.modelKeys = Except.ok merged)
    ∧ ((∃ v, loadCheckpointState modelKeys optKeys schedKeys r = Except.ok v)
        ↔ (sameKeySet optKeys r.optimizerKeys = true
            ∧ sameKeySet schedKeys r.schedulerKeys = true))
    ∧ ((sameKeySet optKeys r.optimizerKeys = false
          ∨ sameKeySet schedKeys r.schedulerKeys = false) →
        loadCheckpointState modelKeys optKeys schedKeys r
          = Except.error "state dict key mismatch")
    ∧ ((sameKeySet optKeys r.optimizerKeys = true
          ∧ sameKeySet schedKeys r.schedulerKeys = true) →
        loadCheckpointState modelKeys optKeys schedKeys r = Except.ok (r.epoch + 1)) := by
  refine ⟨⟨_, rfl⟩, ?_, ?_, ?_⟩ <;>
    by_cases ho : sameKeySet optKeys r.optimizerKeys <;>
      by_cases hsch : sameKeySet schedKeys r.schedulerKeys <;>
        simp_all [loadCheckpointState, lenientLoad, strictLoad]

/-- Closed instantiation of `C6_load_semantics`: a model-key mismatch alone is
tolerated and resume succeeds with epoch + 1, while an optimizer-key mismatch
makes the load fail fatally. -/
theorem C6_load_semantics_witness :
    loadCheckpointState ["w1"] ["o"] ["s"] ⟨3, ["w2"], ["o"], ["s"]⟩ = Except.ok 4
    ∧ loadCheckpointState ["w1"] ["o1"] ["s"] ⟨3, ["w2"], ["o2"], ["s"]⟩
        = Except.error "state dict key mismatch" :=
  ⟨(C6_load_semantics ["w1"] ["o"] ["s"] ⟨3, ["w2"], ["o"], ["s"]⟩).2.2.2
      ⟨by decide, by decide⟩,
   (C6_load_semantics ["w1"] ["o1"] ["s"] ⟨3, ["w2"], ["o2"], ["s"]⟩).2.2.1
      (Or.inl (by decide))⟩

end OpenFlamingoTrain
